import Mathlib

/-!
Verification of the tool-call fulfillment loop of `django_ai_assistant`
(`src/django_ai_assistant/ai/function_calling.py`), a shallow embedding of
`EventHandler`: the registry built in `__init__`, the per-call processing and
batch submission in `handle_requires_action` / `submit_tool_outputs`.

Conventions of the embedding:
* the JSON values produced by `json.loads` are the inductive `Json`; the
  parser itself is an external collaborator (the Python standard library),
  so it is passed in as a function `String → Option Json` (`none` models a
  `json.JSONDecodeError`);
* the distinct exceptions raised inside `handle_requires_action` become the
  constructors of `Error`, named after the spec taxonomy: the
  `Exception(f"Unexpected tool_call.type=...")` raise is
  `protocolViolationError`, the `KeyError` of the `tools_by_name` dict
  lookup is `unknownToolError`, and the
  `Exception(f"Failed to parse tool arguments: ...")` raise is
  `argumentDecodeError`;
* a fallible step returns `Except Error _`; the Python `for` loop with its
  raises is a structural recursion over the call list that stops at the
  first error, exactly as a raise aborts the loop;
* `submit_tool_outputs` is called exactly once, after the whole loop, so the
  sequence of resume calls issued for a batch is `[batch]` on success and
  `[]` when any call raised (`submissions`).
-/

namespace FunctionCalling

/-- A JSON value, the result of Python's `json.loads` on a tool call's raw
argument payload. -/
inductive Json where
  | null
  | bool (b : Bool)
  | num (n : Int)
  | str (s : String)
  | arr (elems : List Json)
  | obj (fields : List (String × Json))
deriving Repr

/-- Whether a JSON value is a key/value object (a Python `dict`). -/
def Json.isObj : Json → Bool
  | .obj _ => true
  | _ => false

/-- The distinct failures raised inside `EventHandler.handle_requires_action`,
named after the spec's error taxonomy (see the module docstring for the
correspondence with the concrete Python exceptions). -/
inductive Error where
  | protocolViolationError (callType : String)
  | unknownToolError (toolName : String)
  | argumentDecodeError (raw : String)
deriving Repr, DecidableEq

/-- `ToolMetadata` of `function_tool.py`: carries the tool's name, used as the
registry key (`tool.metadata.name`). -/
structure ToolMetadata where
  name : String

/-- Modelled from the spec: `FunctionTool` is declared in
`ai/function_tool.py`, which is not among the sources; §3 "ToolDescriptor"
describes it as a name, an argument schema (named, optionally-defaulted
parameters) and an invocation function. `schemaFields` are the declared
field names, `requiredFields` the subset without defaults, and `fn` the
underlying callable: it receives keyword arguments and either returns a
display string or raises (`Except.error` carrying the exception message). -/
structure FunctionTool where
  metadata : ToolMetadata
  schemaFields : List String
  requiredFields : List String
  fn : List (String × Json) → Except String String

/-- How one invocation ended, per the spec's `ToolOutcome` failure kinds. -/
inductive OutcomeKind where
  | success
  | toolExecutionError
  | argumentValidationError
deriving Repr, DecidableEq

/-- The spec's `ToolOutcome`: how the call ended plus its display string
(the remote protocol only accepts string outputs). -/
structure ToolOutcome where
  kind : OutcomeKind
  output : String
deriving Repr, DecidableEq

/-- Modelled from the spec: the argument-cleanup step of `call_tool`
(§4.2) — unknown extra fields are dropped before invocation, keeping only
declared schema fields. -/
def filterKwargs (tool : FunctionTool) (fields : List (String × Json)) :
    List (String × Json) :=
  fields.filter (fun f => tool.schemaFields.contains f.1)

/-- Modelled from the spec: the required-field check of `call_tool` (§4.2) —
every required field must be present among the declared fields kept. -/
def requiredOk (tool : FunctionTool) (fields : List (String × Json)) : Bool :=
  tool.requiredFields.all (fun r => (filterKwargs tool fields).any (fun f => f.1 == r))

/-- Wrapping of the underlying callable's result into an outcome: a raise is
caught and becomes a `toolExecutionError` outcome carrying the exception's
message (§4.3). -/
def outcomeOfFn : Except String String → ToolOutcome
  | .ok v => ⟨.success, v⟩
  | .error msg => ⟨.toolExecutionError, msg⟩

/-- Modelled from the spec: `call_tool` is defined in `ai/function_tool.py`,
which is not among the sources. Per §4.2–§4.3: a key/value payload is
filtered down to declared schema fields, missing required fields yield an
`ArgumentValidationError` outcome, and the callable is invoked with the
cleaned keyword arguments, any exception being caught and converted to a
`ToolExecutionError` outcome with the exception's message — never
propagated. A payload that is not a key/value object cannot be unpacked
into keyword arguments, so the failure surfaces at invocation time, inside
the same catch-all. -/
def call_tool (tool : FunctionTool) (kwargs : Json) : ToolOutcome :=
  match kwargs with
  | .obj fields =>
    if requiredOk tool fields then
      outcomeOfFn (tool.fn (filterKwargs tool fields))
    else
      ⟨.argumentValidationError, "missing required arguments"⟩
  | _ => ⟨.toolExecutionError, "arguments are not a mapping"⟩

/-- `tool_call.function` of the OpenAI event: the requested tool name and the
raw serialized argument payload. -/
structure ToolCallFunction where
  name : String
  arguments : String
deriving DecidableEq

/-- One pending tool call of a "requires action" event: call id, call type
(`tool_call.type`, expected to be `"function"`) and the function request. -/
structure ToolCall where
  id : String
  type : String
  function : ToolCallFunction
deriving DecidableEq

/-- One entry of the submission payload, as built by the loop:
`{"tool_call_id": tool_call.id, "output": str(output)}`. -/
structure ToolOutput where
  tool_call_id : String
  output : String
deriving Repr, DecidableEq

/-- One `dict` assignment `d[k] = v`: replaces the value at an existing key,
otherwise appends the binding. -/
def dictInsert (d : List (String × FunctionTool)) (k : String) (v : FunctionTool) :
    List (String × FunctionTool) :=
  if d.any (fun p => p.1 == k) then
    d.map (fun p => if p.1 == k then (k, v) else p)
  else
    d ++ [(k, v)]

/-- The registry built in `EventHandler.__init__`:
`{tool.metadata.name: tool for tool in tools}` — a dict comprehension, i.e.
repeated `dict` assignment in list order. -/
def buildToolsByName (tools : List FunctionTool) : List (String × FunctionTool) :=
  tools.foldl (fun d tool => dictInsert d tool.metadata.name tool) []

/-- Lines 37–44 of `function_calling.py`: an empty argument string yields the
empty keyword-argument set `{}`; otherwise the payload is parsed, a parse
failure raising the "Failed to parse tool arguments" exception that carries
the offending raw string. -/
def decodeArguments (parse : String → Option Json) (raw : String) :
    Except Error Json :=
  if raw = "" then
    .ok (Json.obj [])
  else
    match parse raw with
    | some j => .ok j
    | none => .error (.argumentDecodeError raw)

/-- One iteration of the loop in `EventHandler.handle_requires_action`:
check `tool_call.type`, look the name up in `tools_by_name` (a `KeyError`
on a miss), decode the arguments, invoke the tool, and build the output
entry `{"tool_call_id": tool_call.id, "output": str(output)}`. -/
def processToolCall (parse : String → Option Json)
    (tools_by_name : List (String × FunctionTool)) (tc : ToolCall) :
    Except Error ToolOutput :=
  if tc.type ≠ "function" then
    .error (.protocolViolationError tc.type)
  else
    match tools_by_name.lookup tc.function.name with
    | none => .error (.unknownToolError tc.function.name)
    | some tool =>
      match decodeArguments parse tc.function.arguments with
      | .error e => .error e
      | .ok kwargs => .ok ⟨tc.id, (call_tool tool kwargs).output⟩

/-- `EventHandler.handle_requires_action` up to the submission: the loop over
`data.required_action.submit_tool_outputs.tool_calls`, appending one output
entry per call in order, the first raise aborting the whole loop (so no
output list is built at all). -/
def handle_requires_action (parse : String → Option Json)
    (tools_by_name : List (String × FunctionTool)) :
    List ToolCall → Except Error (List ToolOutput)
  | [] => .ok []
  | tc :: rest =>
    match processToolCall parse tools_by_name tc with
    | .error e => .error e
    | .ok o =>
      match handle_requires_action parse tools_by_name rest with
      | .error e => .error e
      | .ok os => .ok (o :: os)

/-- The resume calls issued while handling one "requires action" batch:
`submit_tool_outputs` is reached exactly once, after the loop, with the
complete output list; a raise anywhere in the loop propagates out of
`handle_requires_action` before the submission line. -/
def submissions (parse : String → Option Json)
    (tools_by_name : List (String × FunctionTool)) (calls : List ToolCall) :
    List (List ToolOutput) :=
  match handle_requires_action parse tools_by_name calls with
  | .ok batch => [batch]
  | .error _ => []

/-- Whether an `Except` computation succeeded. -/
def exceptIsOk {ε α : Type} : Except ε α → Bool
  | .ok _ => true
  | .error _ => false

/-- A call that the loop processes without raising: its type is `"function"`,
its tool name resolves, and its argument payload decodes. -/
def goodCall (parse : String → Option Json)
    (tools_by_name : List (String × FunctionTool)) (tc : ToolCall) : Bool :=
  tc.type == "function" &&
    (tools_by_name.lookup tc.function.name).isSome &&
    exceptIsOk (decodeArguments parse tc.function.arguments)

/-- The output entry a good call contributes (the `default` branches are
never reached for a good call). -/
def outputFor (parse : String → Option Json)
    (tools_by_name : List (String × FunctionTool)) (tc : ToolCall) : ToolOutput :=
  match tools_by_name.lookup tc.function.name with
  | none => ⟨tc.id, ""⟩
  | some tool =>
    match decodeArguments parse tc.function.arguments with
    | .error _ => ⟨tc.id, ""⟩
    | .ok kwargs => ⟨tc.id, (call_tool tool kwargs).output⟩

/-! ### General lemmas about the loop -/

theorem process_ok_id {parse : String → Option Json}
    {tools_by_name : List (String × FunctionTool)} {tc : ToolCall} {o : ToolOutput}
    (h : processToolCall parse tools_by_name tc = .ok o) : o.tool_call_id = tc.id := by
  unfold processToolCall at h
  split at h
  · exact absurd h (by simp)
  · split at h
    · exact absurd h (by simp)
    · split at h
      · exact absurd h (by simp)
      · cases h; rfl

theorem goodCall_process {parse : String → Option Json}
    {tools_by_name : List (String × FunctionTool)} {tc : ToolCall}
    (h : goodCall parse tools_by_name tc = true) :
    processToolCall parse tools_by_name tc = .ok (outputFor parse tools_by_name tc) := by
  unfold goodCall at h
  simp only [Bool.and_eq_true, beq_iff_eq] at h
  obtain ⟨⟨hty, hlk⟩, hdec⟩ := h
  cases hl : tools_by_name.lookup tc.function.name with
  | none => rw [hl] at hlk; simp at hlk
  | some tool =>
    cases hd : decodeArguments parse tc.function.arguments with
    | error e => rw [hd] at hdec; simp [exceptIsOk] at hdec
    | ok kwargs => simp [processToolCall, outputFor, hty, hl, hd]

theorem handle_eq_map_of_good {parse : String → Option Json}
    {tools_by_name : List (String × FunctionTool)} {calls : List ToolCall}
    (h : ∀ tc ∈ calls, goodCall parse tools_by_name tc = true) :
    handle_requires_action parse tools_by_name calls =
      .ok (calls.map (outputFor parse tools_by_name)) := by
  induction calls with
  | nil => rfl
  | cons tc rest ih =>
    have hhd := goodCall_process (h tc (List.mem_cons_self tc rest))
    have htl := ih (fun c hc => h c (List.mem_cons_of_mem tc hc))
    simp [handle_requires_action, hhd, htl]

theorem handle_ok_ids {parse : String → Option Json}
    {tools_by_name : List (String × FunctionTool)} {calls : List ToolCall}
    {batch : List ToolOutput}
    (h : handle_requires_action parse tools_by_name calls = .ok batch) :
    batch.map ToolOutput.tool_call_id = calls.map ToolCall.id := by
  induction calls generalizing batch with
  | nil => cases h; rfl
  | cons tc rest ih =>
    unfold handle_requires_action at h
    cases hp : processToolCall parse tools_by_name tc with
    | error e => rw [hp] at h; exact absurd h (by simp)
    | ok o =>
      rw [hp] at h
      cases hr : handle_requires_action parse tools_by_name rest with
      | error e => rw [hr] at h; exact absurd h (by simp)
      | ok os =>
        rw [hr] at h
        cases h
        simp [ih hr, process_ok_id hp]

theorem handle_error_of_bad {parse : String → Option Json}
    {tools_by_name : List (String × FunctionTool)} {calls : List ToolCall}
    (h : ∃ tc ∈ calls, exceptIsOk (processToolCall parse tools_by_name tc) = false) :
    exceptIsOk (handle_requires_action parse tools_by_name calls) = false := by
  induction calls with
  | nil => simp at h
  | cons tc rest ih =>
    obtain ⟨c, hc, hbad⟩ := h
    cases hp : processToolCall parse tools_by_name tc with
    | error e => simp [handle_requires_action, hp, exceptIsOk]
    | ok o =>
      rcases List.mem_cons.mp hc with heq | hmem
      · subst heq; rw [hp] at hbad; simp [exceptIsOk] at hbad
      · have := ih ⟨c, hmem, hbad⟩
        cases hr : handle_requires_action parse tools_by_name rest with
        | error e => simp [handle_requires_action, hp, hr, exceptIsOk]
        | ok os => rw [hr] at this; simp [exceptIsOk] at this

/-! ### Claim theorems: completed batches and argument decoding -/

theorem outputFor_id {parse : String → Option Json}
    {tools_by_name : List (String × FunctionTool)} {tc : ToolCall} :
    (outputFor parse tools_by_name tc).tool_call_id = tc.id := by
  unfold outputFor
  split
  · rfl
  · split <;> rfl

/-- C1: a "requires action" batch of N pending calls in which every call is of
kind "function", every tool name resolves and every argument payload decodes
is processed to completion, and the submitted batch has exactly N output
entries whose call ids are a permutation (in fact an order-preserving copy)
of the N input call ids — no drops, no duplicates. -/
theorem C1_complete_batch_preserves_call_ids (parse : String → Option Json)
    (tools_by_name : List (String × FunctionTool)) (calls : List ToolCall)
    (hty : ∀ tc ∈ calls, tc.type = "function")
    (hres : ∀ tc ∈ calls, (tools_by_name.lookup tc.function.name).isSome = true)
    (hdec : ∀ tc ∈ calls, exceptIsOk (decodeArguments parse tc.function.arguments) = true) :
    ∃ batch, handle_requires_action parse tools_by_name calls = .ok batch ∧
      batch.length = calls.length ∧
      batch.map ToolOutput.tool_call_id = calls.map ToolCall.id ∧
      (batch.map ToolOutput.tool_call_id).Perm (calls.map ToolCall.id) := by
  have hgood : ∀ tc ∈ calls, goodCall parse tools_by_name tc = true := by
    intro tc htc
    simp [goodCall, hty tc htc, hres tc htc, hdec tc htc]
  have hmap : (calls.map (outputFor parse tools_by_name)).map ToolOutput.tool_call_id =
      calls.map ToolCall.id := by
    rw [List.map_map]
    exact List.map_congr_left (fun tc _ => outputFor_id)
  exact ⟨calls.map (outputFor parse tools_by_name), handle_eq_map_of_good hgood,
    by simp, hmap, hmap ▸ List.Perm.refl _⟩

def c1Tools : List (String × FunctionTool) :=
  buildToolsByName
    [⟨⟨"alpha"⟩, [], [], fun _ => .ok "A"⟩, ⟨⟨"beta"⟩, [], [], fun _ => .ok "B"⟩]

def c1Calls : List ToolCall :=
  [⟨"call_1", "function", ⟨"alpha", ""⟩⟩, ⟨"call_2", "function", ⟨"beta", ""⟩⟩]

theorem C1_witness :
    ∃ batch, handle_requires_action (fun _ => none) c1Tools c1Calls = .ok batch ∧
      batch.length = c1Calls.length ∧
      batch.map ToolOutput.tool_call_id = c1Calls.map ToolCall.id ∧
      (batch.map ToolOutput.tool_call_id).Perm (c1Calls.map ToolCall.id) :=
  C1_complete_batch_preserves_call_ids (fun _ => none) c1Tools c1Calls
    (by decide) (by decide) (by decide)

/-- C5: a non-empty raw argument payload that fails to parse makes decoding
fail with `argumentDecodeError` carrying the offending raw string — never a
silently empty or default argument set. -/
theorem C5_malformed_arguments_decode_error (parse : String → Option Json)
    (raw : String) (hne : raw ≠ "") (hfail : parse raw = none) :
    decodeArguments parse raw = .error (.argumentDecodeError raw) := by
  simp [decodeArguments, hne, hfail]

theorem C5_witness :
    decodeArguments (fun _ => none) "certainly not parseable" =
      .error (.argumentDecodeError "certainly not parseable") :=
  C5_malformed_arguments_decode_error (fun _ => none) "certainly not parseable"
    (by decide) rfl

/-- C9: an empty raw argument payload decodes successfully to the empty
keyword-argument set, never an error, and the resolved tool is invoked with
that empty set. -/
theorem C9_empty_arguments_empty_kwargs (parse : String → Option Json)
    (tools_by_name : List (String × FunctionTool)) (tc : ToolCall)
    (tool : FunctionTool)
    (hty : tc.type = "function")
    (hargs : tc.function.arguments = "")
    (hres : tools_by_name.lookup tc.function.name = some tool) :
    decodeArguments parse tc.function.arguments = .ok (Json.obj []) ∧
    processToolCall parse tools_by_name tc =
      .ok ⟨tc.id, (call_tool tool (Json.obj [])).output⟩ := by
  refine ⟨by simp [decodeArguments, hargs], ?_⟩
  simp [processToolCall, hty, hres, decodeArguments, hargs]

def c9Tool : FunctionTool := ⟨⟨"fetch_current_temperature"⟩, [], [], fun _ => .ok "32 degrees Celsius"⟩

theorem C9_witness :
    decodeArguments (fun _ => none) "" = .ok (Json.obj []) ∧
    processToolCall (fun _ => none) (buildToolsByName [c9Tool])
        ⟨"call_9", "function", ⟨"fetch_current_temperature", ""⟩⟩ =
      .ok ⟨"call_9", (call_tool c9Tool (Json.obj [])).output⟩ :=
  C9_empty_arguments_empty_kwargs (fun _ => none) (buildToolsByName [c9Tool])
    ⟨"call_9", "function", ⟨"fetch_current_temperature", ""⟩⟩ c9Tool
    rfl rfl rfl

/-- C10 (implicit): a non-empty payload that parses to a value that is not a
key/value object does not raise `argumentDecodeError`; the parsed
non-mapping value is passed through to the invocation, where the failure
surfaces (as a caught invocation-time failure outcome). -/
theorem C10_nonmapping_payload_passes_through (parse : String → Option Json)
    (tools_by_name : List (String × FunctionTool)) (tc : ToolCall)
    (tool : FunctionTool) (j : Json)
    (hty : tc.type = "function")
    (hne : tc.function.arguments ≠ "")
    (hparse : parse tc.function.arguments = some j)
    (hobj : j.isObj = false)
    (hres : tools_by_name.lookup tc.function.name = some tool) :
    decodeArguments parse tc.function.arguments = .ok j ∧
    processToolCall parse tools_by_name tc = .ok ⟨tc.id, (call_tool tool j).output⟩ ∧
    call_tool tool j = ⟨.toolExecutionError, "arguments are not a mapping"⟩ := by
  refine ⟨by simp [decodeArguments, hne, hparse], ?_, ?_⟩
  · simp [processToolCall, hty, hres, decodeArguments, hne, hparse]
  · cases j <;> simp_all [call_tool, Json.isObj]

def c10Tool : FunctionTool := ⟨⟨"gamma"⟩, ["x"], ["x"], fun _ => .ok "G"⟩

theorem C10_witness :
    decodeArguments (fun s => if s = "5" then some (Json.num 5) else none) "5" =
        .ok (Json.num 5) ∧
    processToolCall (fun s => if s = "5" then some (Json.num 5) else none)
        (buildToolsByName [c10Tool]) ⟨"call_10", "function", ⟨"gamma", "5"⟩⟩ =
      .ok ⟨"call_10", (call_tool c10Tool (Json.num 5)).output⟩ ∧
    call_tool c10Tool (Json.num 5) = ⟨.toolExecutionError, "arguments are not a mapping"⟩ :=
  C10_nonmapping_payload_passes_through (fun s => if s = "5" then some (Json.num 5) else none)
    (buildToolsByName [c10Tool]) ⟨"call_10", "function", ⟨"gamma", "5"⟩⟩ c10Tool (Json.num 5)
    rfl (by decide) rfl rfl rfl

/-! ### Claim theorems: exception containment, atomic submission, field filtering -/

/-- C2: a call whose underlying tool function raises is converted to a
`toolExecutionError` outcome carrying the exception's message; the message
becomes that call's output string, the exception does not propagate out of
the batch loop, and every sibling call's output entry is still produced and
submitted. -/
theorem C2_tool_exception_contained (parse : String → Option Json)
    (tools_by_name : List (String × FunctionTool)) (calls : List ToolCall)
    (hty : ∀ tc ∈ calls, tc.type = "function")
    (hres : ∀ tc ∈ calls, (tools_by_name.lookup tc.function.name).isSome = true)
    (hdec : ∀ tc ∈ calls, exceptIsOk (decodeArguments parse tc.function.arguments) = true)
    (i : Nat) (tc : ToolCall) (hi : calls[i]? = some tc)
    (tool : FunctionTool) (hlook : tools_by_name.lookup tc.function.name = some tool)
    (fields : List (String × Json))
    (hdecode : decodeArguments parse tc.function.arguments = .ok (.obj fields))
    (hreq : requiredOk tool fields = true)
    (msg : String) (hraise : tool.fn (filterKwargs tool fields) = .error msg) :
    call_tool tool (.obj fields) = ⟨.toolExecutionError, msg⟩ ∧
    ∃ batch, handle_requires_action parse tools_by_name calls = .ok batch ∧
      batch.map ToolOutput.tool_call_id = calls.map ToolCall.id ∧
      batch[i]? = some ⟨tc.id, msg⟩ := by
  have hct : call_tool tool (.obj fields) = ⟨.toolExecutionError, msg⟩ := by
    simp [call_tool, hreq, hraise, outcomeOfFn]
  have hgood : ∀ c ∈ calls, goodCall parse tools_by_name c = true := by
    intro c hc
    simp [goodCall, hty c hc, hres c hc, hdec c hc]
  have hmap : (calls.map (outputFor parse tools_by_name)).map ToolOutput.tool_call_id =
      calls.map ToolCall.id := by
    rw [List.map_map]
    exact List.map_congr_left (fun c _ => outputFor_id)
  refine ⟨hct, calls.map (outputFor parse tools_by_name),
    handle_eq_map_of_good hgood, hmap, ?_⟩
  rw [List.getElem?_map, hi]
  simp [outputFor, hlook, hdecode, hct]

def c2Tools : List (String × FunctionTool) :=
  buildToolsByName
    [⟨⟨"boom"⟩, [], [], fun _ => .error "division by zero"⟩,
     ⟨⟨"okay"⟩, [], [], fun _ => .ok "fine"⟩]

def c2Calls : List ToolCall :=
  [⟨"call_a", "function", ⟨"boom", ""⟩⟩, ⟨"call_b", "function", ⟨"okay", ""⟩⟩]

def c2Boom : FunctionTool := ⟨⟨"boom"⟩, [], [], fun _ => .error "division by zero"⟩

theorem C2_witness :
    call_tool c2Boom (.obj []) = ⟨.toolExecutionError, "division by zero"⟩ ∧
    ∃ batch, handle_requires_action (fun _ => none) c2Tools c2Calls = .ok batch ∧
      batch.map ToolOutput.tool_call_id = c2Calls.map ToolCall.id ∧
      batch[0]? = some ⟨"call_a", "division by zero"⟩ :=
  C2_tool_exception_contained (fun _ => none) c2Tools c2Calls
    (by decide) (by decide) (by decide)
    0 ⟨"call_a", "function", ⟨"boom", ""⟩⟩ rfl
    c2Boom rfl [] rfl rfl "division by zero" rfl

/-- C4: the resume call for a batch is performed at most once; whenever it is
performed, it submits the batch that processing produced, whose call-id list
is exactly the input call-id list; and if processing any call in the batch
raises, no resume call is issued at all. -/
theorem C4_submit_once_and_only_complete (parse : String → Option Json)
    (tools_by_name : List (String × FunctionTool)) (calls : List ToolCall) :
    (submissions parse tools_by_name calls).length ≤ 1 ∧
    (∀ batch ∈ submissions parse tools_by_name calls,
      handle_requires_action parse tools_by_name calls = .ok batch ∧
      batch.map ToolOutput.tool_call_id = calls.map ToolCall.id) ∧
    ((∃ tc ∈ calls, exceptIsOk (processToolCall parse tools_by_name tc) = false) →
      submissions parse tools_by_name calls = []) := by
  refine ⟨?_, ?_, ?_⟩
  · unfold submissions
    split <;> simp
  · intro batch hb
    unfold submissions at hb
    cases hh : handle_requires_action parse tools_by_name calls with
    | error e => rw [hh] at hb; simp at hb
    | ok b =>
      rw [hh] at hb
      simp at hb
      subst hb
      exact ⟨rfl, handle_ok_ids hh⟩
  · intro hbad
    have herr := handle_error_of_bad hbad
    unfold submissions
    cases hh : handle_requires_action parse tools_by_name calls with
    | error e => rfl
    | ok b => rw [hh] at herr; simp [exceptIsOk] at herr

def c4Tools : List (String × FunctionTool) :=
  buildToolsByName [⟨⟨"omega"⟩, [], [], fun _ => .ok "O"⟩]

def c4Calls : List ToolCall :=
  [⟨"call_c", "function", ⟨"omega", ""⟩⟩, ⟨"call_d", "function", ⟨"zeta", ""⟩⟩]

theorem C4_witness :
    submissions (fun _ => none) c4Tools c4Calls = [] :=
  (C4_submit_once_and_only_complete (fun _ => none) c4Tools c4Calls).2.2
    ⟨⟨"call_d", "function", ⟨"zeta", ""⟩⟩, by decide, rfl⟩

/-- C7: every keyword argument passed to the tool's function is a declared
schema field; prepending an unknown extra field to the payload changes
nothing about the invocation (in particular it never causes an error); and
when the required fields are present, the outcome is exactly the function
applied to the filtered, declared-fields-only keyword arguments. -/
theorem C7_unknown_fields_dropped (tool : FunctionTool)
    (fields : List (String × Json)) (extra : String × Json)
    (hextra : tool.schemaFields.contains extra.1 = false) :
    (∀ f ∈ filterKwargs tool fields, tool.schemaFields.contains f.1 = true) ∧
    call_tool tool (.obj (extra :: fields)) = call_tool tool (.obj fields) ∧
    (requiredOk tool fields = true →
      call_tool tool (.obj fields) = outcomeOfFn (tool.fn (filterKwargs tool fields))) := by
  have hmem : extra.1 ∉ tool.schemaFields := by simpa using hextra
  have hfk : filterKwargs tool (extra :: fields) = filterKwargs tool fields := by
    simp [filterKwargs, List.filter_cons, hmem]
  have hro : requiredOk tool (extra :: fields) = requiredOk tool fields := by
    unfold requiredOk
    rw [hfk]
  refine ⟨?_, ?_, ?_⟩
  · intro f hf
    unfold filterKwargs at hf
    exact (List.mem_filter.mp hf).2
  · simp [call_tool, hro, hfk]
  · intro hreq
    simp [call_tool, hreq]

def c7Tool : FunctionTool :=
  ⟨⟨"fetch_forecast_temperature"⟩, ["location"], ["location"], fun _ => .ok "35 degrees Celsius"⟩

theorem C7_witness :
    (∀ f ∈ filterKwargs c7Tool [("location", Json.str "Recife")],
      c7Tool.schemaFields.contains f.1 = true) ∧
    call_tool c7Tool (.obj (("unit", Json.str "C") :: [("location", Json.str "Recife")])) =
      call_tool c7Tool (.obj [("location", Json.str "Recife")]) ∧
    (requiredOk c7Tool [("location", Json.str "Recife")] = true →
      call_tool c7Tool (.obj [("location", Json.str "Recife")]) =
        outcomeOfFn (c7Tool.fn (filterKwargs c7Tool [("location", Json.str "Recife")]))) :=
  C7_unknown_fields_dropped c7Tool [("location", Json.str "Recife")]
    ("unit", Json.str "C") rfl

/-! ### Claim theorems: fatal failures and submission suppression -/

/-- Whether a batch result is the unknown-tool failure. -/
def isUnknownToolResult : Except Error (List ToolOutput) → Bool
  | .error (.unknownToolError _) => true
  | _ => false

/-- Whether a batch result is the protocol-violation failure. -/
def isProtocolViolationResult : Except Error (List ToolOutput) → Bool
  | .error (.protocolViolationError _) => true
  | _ => false

def c3CexTools : List (String × FunctionTool) :=
  buildToolsByName [⟨⟨"known"⟩, [], [], fun _ => .ok "K"⟩]

def c3CexCalls : List ToolCall :=
  [⟨"x1", "retrieval", ⟨"known", ""⟩⟩, ⟨"x2", "function", ⟨"missing_tool", ""⟩⟩]

/-- C3 counterexample: this batch contains a call (`x2`) whose tool name is
absent from the registry, yet processing fails with the protocol-violation
error of the earlier non-"function" call, not with the unknown-tool error. -/
theorem C3_counterexample :
    c3CexCalls.any (fun tc => (c3CexTools.lookup tc.function.name).isNone) = true ∧
    handle_requires_action (fun _ => none) c3CexTools c3CexCalls =
      .error (.protocolViolationError "retrieval") ∧
    isUnknownToolResult (handle_requires_action (fun _ => none) c3CexTools c3CexCalls) =
      false :=
  ⟨rfl, rfl, rfl⟩

/-- C3 (amended): if a batch contains a "function"-kind call whose tool name
is absent from the registry and every call before it is processed without
raising, then the batch fails with the unknown-tool error and no resume call
is issued. -/
theorem C3_unknown_tool_fatal (parse : String → Option Json)
    (tools_by_name : List (String × FunctionTool))
    (pre post : List ToolCall) (tc : ToolCall)
    (hpre : ∀ c ∈ pre, goodCall parse tools_by_name c = true)
    (hty : tc.type = "function")
    (hmiss : tools_by_name.lookup tc.function.name = none) :
    handle_requires_action parse tools_by_name (pre ++ tc :: post) =
      .error (.unknownToolError tc.function.name) ∧
    submissions parse tools_by_name (pre ++ tc :: post) = [] := by
  have hh : handle_requires_action parse tools_by_name (pre ++ tc :: post) =
      .error (.unknownToolError tc.function.name) := by
    induction pre with
    | nil =>
      have hp : processToolCall parse tools_by_name tc =
          .error (.unknownToolError tc.function.name) := by
        simp [processToolCall, hty, hmiss]
      simp [handle_requires_action, hp]
    | cons c rest ih =>
      have hc := goodCall_process (hpre c (List.mem_cons_self c rest))
      have ht := ih (fun x hx => hpre x (List.mem_cons_of_mem c hx))
      simp [handle_requires_action, hc, ht]
  exact ⟨hh, by simp [submissions, hh]⟩

def c3Tools : List (String × FunctionTool) :=
  buildToolsByName [⟨⟨"known"⟩, [], [], fun _ => .ok "K"⟩]

theorem C3_witness :
    handle_requires_action (fun _ => none) c3Tools
        [⟨"x3", "function", ⟨"known", ""⟩⟩, ⟨"x4", "function", ⟨"nonexistent_tool", ""⟩⟩] =
      .error (.unknownToolError "nonexistent_tool") ∧
    submissions (fun _ => none) c3Tools
        [⟨"x3", "function", ⟨"known", ""⟩⟩, ⟨"x4", "function", ⟨"nonexistent_tool", ""⟩⟩] =
      [] :=
  C3_unknown_tool_fatal (fun _ => none) c3Tools
    [⟨"x3", "function", ⟨"known", ""⟩⟩] []
    ⟨"x4", "function", ⟨"nonexistent_tool", ""⟩⟩
    (by decide) rfl rfl

def c6CexTools : List (String × FunctionTool) :=
  buildToolsByName [⟨⟨"known"⟩, [], [], fun _ => .ok "K"⟩]

def c6CexCalls : List ToolCall :=
  [⟨"y1", "function", ⟨"vanished", ""⟩⟩, ⟨"y2", "code_interpreter", ⟨"known", ""⟩⟩]

/-- C6 counterexample: this batch contains a call (`y2`) whose kind is not
"function", yet processing fails with the unknown-tool error of the earlier
call, not with the protocol-violation error. -/
theorem C6_counterexample :
    c6CexCalls.any (fun tc => tc.type != "function") = true ∧
    handle_requires_action (fun _ => none) c6CexTools c6CexCalls =
      .error (.unknownToolError "vanished") ∧
    isProtocolViolationResult
      (handle_requires_action (fun _ => none) c6CexTools c6CexCalls) = false :=
  ⟨rfl, rfl, rfl⟩

/-- C6 (amended): if a batch contains a call whose kind is not "function" and
every call before it is processed without raising, then the batch fails with
the protocol-violation error carrying that kind, and no resume call is
issued. -/
theorem C6_bad_kind_fatal (parse : String → Option Json)
    (tools_by_name : List (String × FunctionTool))
    (pre post : List ToolCall) (tc : ToolCall)
    (hpre : ∀ c ∈ pre, goodCall parse tools_by_name c = true)
    (hty : tc.type ≠ "function") :
    handle_requires_action parse tools_by_name (pre ++ tc :: post) =
      .error (.protocolViolationError tc.type) ∧
    submissions parse tools_by_name (pre ++ tc :: post) = [] := by
  have hh : handle_requires_action parse tools_by_name (pre ++ tc :: post) =
      .error (.protocolViolationError tc.type) := by
    induction pre with
    | nil =>
      have hp : processToolCall parse tools_by_name tc =
          .error (.protocolViolationError tc.type) := by
        simp [processToolCall, hty]
      simp [handle_requires_action, hp]
    | cons c rest ih =>
      have hc := goodCall_process (hpre c (List.mem_cons_self c rest))
      have ht := ih (fun x hx => hpre x (List.mem_cons_of_mem c hx))
      simp [handle_requires_action, hc, ht]
  exact ⟨hh, by simp [submissions, hh]⟩

def c6Tools : List (String × FunctionTool) :=
  buildToolsByName [⟨⟨"known"⟩, [], [], fun _ => .ok "K"⟩]

theorem C6_witness :
    handle_requires_action (fun _ => none) c6Tools
        [⟨"y3", "function", ⟨"known", ""⟩⟩, ⟨"y4", "retrieval", ⟨"known", ""⟩⟩] =
      .error (.protocolViolationError "retrieval") ∧
    submissions (fun _ => none) c6Tools
        [⟨"y3", "function", ⟨"known", ""⟩⟩, ⟨"y4", "retrieval", ⟨"known", ""⟩⟩] = [] :=
  C6_bad_kind_fatal (fun _ => none) c6Tools
    [⟨"y3", "function", ⟨"known", ""⟩⟩] [] ⟨"y4", "retrieval", ⟨"known", ""⟩⟩
    (by decide) (by decide)

/-! ### Claim theorems: registry construction and duplicate names -/

theorem lookup_map_replace {d : List (String × FunctionTool)} {k : String}
    {v : FunctionTool} (h : d.any (fun p => p.1 == k) = true) :
    (d.map (fun p => if p.1 == k then (k, v) else p)).lookup k = some v := by
  induction d with
  | nil => simp at h
  | cons hd rest ih =>
    obtain ⟨k', v'⟩ := hd
    by_cases hk : (k' == k) = true
    · simp only [List.map_cons, if_pos hk, List.lookup_cons_self]
    · have hk' : (k' == k) = false := Bool.eq_false_iff.mpr hk
      have hrest : rest.any (fun p => p.1 == k) = true := by
        rcases List.any_eq_true.mp h with ⟨p, hp, hpk⟩
        rcases List.mem_cons.mp hp with rfl | hmem
        · exact absurd hpk (by simp [hk'])
        · exact List.any_eq_true.mpr ⟨p, hmem, hpk⟩
      have hne : (k == k') = false := by
        have hne' : k' ≠ k := by simpa using hk'
        simpa using fun e => hne' e.symm
      simp only [List.map_cons, if_neg (by simp [hk'] : ¬((k' == k) = true))]
      rw [List.lookup_cons]
      simp only [hne]
      exact ih hrest

theorem lookup_append_self {d : List (String × FunctionTool)} {k : String}
    {v : FunctionTool} (h : d.any (fun p => p.1 == k) = false) :
    (d ++ [(k, v)]).lookup k = some v := by
  induction d with
  | nil => simp
  | cons hd rest ih =>
    obtain ⟨k', v'⟩ := hd
    have hhd : (k' == k) = false := by
      cases hb : (k' == k) with
      | true => simp [List.any_cons, hb] at h
      | false => rfl
    have hrest : rest.any (fun p => p.1 == k) = false := by
      simp only [List.any_cons, hhd, Bool.false_or] at h
      exact h
    have hne : (k == k') = false := by
      have hne' : k' ≠ k := by simpa using hhd
      simpa using fun e => hne' e.symm
    rw [List.cons_append, List.lookup_cons]
    simp only [hne]
    exact ih hrest

theorem lookup_dictInsert_self (d : List (String × FunctionTool)) (k : String)
    (v : FunctionTool) : (dictInsert d k v).lookup k = some v := by
  unfold dictInsert
  by_cases h : d.any (fun p => p.1 == k) = true
  · rw [if_pos h]
    exact lookup_map_replace h
  · rw [if_neg h]
    exact lookup_append_self (Bool.eq_false_iff.mpr h)

theorem buildToolsByName_append_single (tools : List FunctionTool)
    (t : FunctionTool) :
    buildToolsByName (tools ++ [t]) =
      dictInsert (buildToolsByName tools) t.metadata.name t := by
  unfold buildToolsByName
  rw [List.foldl_append]
  rfl

def c8First : FunctionTool := ⟨⟨"dup"⟩, ["a"], [], fun _ => .ok "first"⟩

def c8Second : FunctionTool := ⟨⟨"dup"⟩, ["b"], [], fun _ => .ok "second"⟩

/-- C8 counterexample: building the registry from a tool list with two tools
both named "dup" does not fail — the dict comprehension silently produces a
one-entry registry holding the second tool (recognizable by its schema
`["b"]`), so no `DuplicateToolError` is ever raised. -/
theorem C8_counterexample :
    c8First.metadata.name = c8Second.metadata.name ∧
    (buildToolsByName [c8First, c8Second]).length = 1 ∧
    ((buildToolsByName [c8First, c8Second]).lookup "dup").map FunctionTool.schemaFields =
      some ["b"] :=
  ⟨rfl, rfl, rfl⟩

/-- C8 (amended): building the registry never fails on duplicate names; the
dict comprehension silently keeps, for each name, the last tool with that
name in the list — in particular the tool appearing last always wins the
lookup of its own name. -/
theorem C8_last_registration_wins (tools : List FunctionTool) (t : FunctionTool) :
    (buildToolsByName (tools ++ [t])).lookup t.metadata.name = some t := by
  rw [buildToolsByName_append_single]
  exact lookup_dictInsert_self _ _ _

end FunctionCalling
